import Mathlib

/-!
Verification of the MovaParticulas continuous-control core: the hand-metrics
extractor (`src/services/geometryService.ts`, `HandMetricsExtractor` /
`MetricSmoother`), the shape-geometry sampler (`generateGeometry`,
`PARTICLE_COUNT`), and the particle-field simulator's per-frame loop and
shape-transition state machine (`src/components/ParticleSystem.tsx`).

Numbers are modelled as real numbers (the idealised semantics of the
JavaScript float arithmetic); array reads that can fall outside an array's
bounds are modelled with `Option` (a JavaScript typed-array read out of
bounds yields `undefined`, which poisons all later arithmetic as `NaN`).
The source's two unguarded divisions — the finger-curl ratio and the
velocity's division by the elapsed time — are real divisions in the base
model; the NaN they produce in JavaScript on a zero denominator is tracked
by dedicated `Option`-valued definitions (`calculateFingerCurlJS`,
`smoothIndexJS`) with bridge lemmas stating when the two readings agree.
-/

namespace MovaParticulas

noncomputable section

/-- 3-component vector, as the `Vector3` / `Landmark` interfaces of the source. -/
structure Vec3 where
  x : ℝ
  y : ℝ
  z : ℝ

/-- The zero vector. -/
def v0 : Vec3 := ⟨0, 0, 0⟩

/-! MediaPipe hand-landmark indices, from `HandLandmark` in `src/unnamed/part_000`. -/

def WRIST : ℕ := 0
def THUMB_TIP : ℕ := 4
def INDEX_FINGER_MCP : ℕ := 5
def INDEX_FINGER_PIP : ℕ := 6
def INDEX_FINGER_DIP : ℕ := 7
def INDEX_FINGER_TIP : ℕ := 8
def MIDDLE_FINGER_MCP : ℕ := 9
def MIDDLE_FINGER_PIP : ℕ := 10
def MIDDLE_FINGER_DIP : ℕ := 11
def MIDDLE_FINGER_TIP : ℕ := 12
def RING_FINGER_MCP : ℕ := 13
def RING_FINGER_PIP : ℕ := 14
def RING_FINGER_DIP : ℕ := 15
def RING_FINGER_TIP : ℕ := 16
def PINKY_MCP : ℕ := 17
def PINKY_PIP : ℕ := 18
def PINKY_DIP : ℕ := 19
def PINKY_TIP : ℕ := 20

/-- Indexing into a landmark frame (`lm[i]`); total encoding of the array
read, returning the zero landmark past the end.  All claims only use it on
frames of length at least 21 with indices below 21, where it agrees with the
source array access. -/
def getLm (lm : List Vec3) (i : ℕ) : Vec3 := lm.getD i v0

/-- `MetricSmoother.smoothValue` (geometryService.ts lines 139-144):
`old = values.get(key) ?? newValue; smoothed = alpha*newValue + (1-alpha)*old`.
The per-channel map entry is modelled as an `Option ℝ` (`none` = key absent). -/
def smoothValue (alpha : ℝ) (old : Option ℝ) (newValue : ℝ) : ℝ :=
  alpha * newValue + (1 - alpha) * old.getD newValue

/-- `MetricSmoother.smoothVector` (lines 146-155). -/
def smoothVector (alpha : ℝ) (old : Option Vec3) (newVec : Vec3) : Vec3 :=
  let o := old.getD newVec
  ⟨alpha * newVec.x + (1 - alpha) * o.x,
   alpha * newVec.y + (1 - alpha) * o.y,
   alpha * newVec.z + (1 - alpha) * o.z⟩

/-- `HandMetricsExtractor.distance3D` (lines 511-516). -/
def distance3D (a b : Vec3) : ℝ :=
  let dx := a.x - b.x
  let dy := a.y - b.y
  let dz := a.z - b.z
  Real.sqrt (dx * dx + dy * dy + dz * dz)

/-- `HandMetricsExtractor.normalize` (lines 518-522): guards an exactly zero
length, returning the canonical `{x:0, y:0, z:1}`. -/
def normalize (v : Vec3) : Vec3 :=
  let len := Real.sqrt (v.x * v.x + v.y * v.y + v.z * v.z)
  if len = 0 then ⟨0, 0, 1⟩ else ⟨v.x / len, v.y / len, v.z / len⟩

/-- The finger argument of `calculateFingerCurl` (a string in the source;
the call sites only use these five values). -/
inductive Finger | thumb | index | middle | ring | pinky
  deriving DecidableEq

/-- The (mcp, pip, dip, tip) landmark indices selected by the `switch` in
`calculateFingerCurl` for the four non-thumb fingers. -/
def fingerJoints : Finger → ℕ × ℕ × ℕ × ℕ
  | .index => (INDEX_FINGER_MCP, INDEX_FINGER_PIP, INDEX_FINGER_DIP, INDEX_FINGER_TIP)
  | .middle => (MIDDLE_FINGER_MCP, MIDDLE_FINGER_PIP, MIDDLE_FINGER_DIP, MIDDLE_FINGER_TIP)
  | .ring => (RING_FINGER_MCP, RING_FINGER_PIP, RING_FINGER_DIP, RING_FINGER_TIP)
  | .pinky => (PINKY_MCP, PINKY_PIP, PINKY_DIP, PINKY_TIP)
  | .thumb => (0, 0, 0, 0)

/-- `HandMetricsExtractor.calculateFingerCurl` (lines 411-464).  Thumb curl is
`1 - min(1, dist/0.15)` from the 3D thumb-tip/index-MCP distance; the other
fingers compare tip-to-wrist against `1.3 ×` mcp-to-wrist distance, add a
`0.3` penalty when the tip's y is below the pip's, and clamp to `[0,1]`.
The ratio `tipToWrist / (mcpToWrist * 1.3)` is written here with total real
division; the source's JavaScript division is UNGUARDED, and its NaN path on
a zero denominator is tracked by `calculateFingerCurlJS` — the two agree
exactly when the finger's base joint does not coincide with the wrist
(`calculateFingerCurlJS_eq_total`). -/
def calculateFingerCurl (lm : List Vec3) (finger : Finger) : ℝ :=
  match finger with
  | .thumb =>
    let thumbTip := getLm lm THUMB_TIP
    let indexMcp := getLm lm INDEX_FINGER_MCP
    let dist := distance3D thumbTip indexMcp
    1 - min 1 (dist / 0.15)
  | f =>
    let (mcp, pip, _dip, tip) := fingerJoints f
    let wrist := getLm lm WRIST
    let mcpToWrist := distance3D (getLm lm mcp) wrist
    let tipToWrist := distance3D (getLm lm tip) wrist
    let curl := 1 - min 1 (tipToWrist / (mcpToWrist * 1.3))
    let yFactor := if (getLm lm tip).y > (getLm lm pip).y then (0.3 : ℝ) else 0
    min 1 (max 0 (curl + yFactor))

/-- `HandMetricsExtractor.calculateFingerSpread` (lines 466-481). -/
def calculateFingerSpread (lm : List Vec3) : ℝ :=
  let d1 := distance3D (getLm lm INDEX_FINGER_TIP) (getLm lm MIDDLE_FINGER_TIP)
  let d2 := distance3D (getLm lm MIDDLE_FINGER_TIP) (getLm lm RING_FINGER_TIP)
  let d3 := distance3D (getLm lm RING_FINGER_TIP) (getLm lm PINKY_TIP)
  let avgDist := (d1 + d2 + d3) / 3
  min 1 (max 0 ((avgDist - 0.02) / 0.08))

/-- `HandMetricsExtractor.calculatePalmNormal` (lines 483-509): normalized
cross product of (indexMcp - pinkyMcp) and (middleMcp - wrist). -/
def calculatePalmNormal (lm : List Vec3) : Vec3 :=
  let wrist := getLm lm WRIST
  let indexMcp := getLm lm INDEX_FINGER_MCP
  let pinkyMcp := getLm lm PINKY_MCP
  let middleMcp := getLm lm MIDDLE_FINGER_MCP
  let v1 : Vec3 := ⟨indexMcp.x - pinkyMcp.x, indexMcp.y - pinkyMcp.y, indexMcp.z - pinkyMcp.z⟩
  let v2 : Vec3 := ⟨middleMcp.x - wrist.x, middleMcp.y - wrist.y, middleMcp.z - wrist.z⟩
  normalize ⟨v1.y * v2.z - v1.z * v2.y, v1.z * v2.x - v1.x * v2.z, v1.x * v2.y - v1.y * v2.x⟩

theorem distance3D_self (a : Vec3) : distance3D a a = 0 := by
  simp only [distance3D, sub_self]
  norm_num [Real.sqrt_zero]

/-! Extractor constants (lines 228-233). -/

def ENERGY_DECAY : ℝ := 0.97
def ENERGY_GAIN : ℝ := 0.2
def REF_HAND_SIZE : ℝ := 0.25
def DEPTH_SCALE : ℝ := 3.0

/-- The `ContinuousHandMetrics` record (lines 167-217). -/
structure ContinuousHandMetrics where
  isPresent : Bool
  confidence : ℝ
  position : Vec3
  velocity : Vec3
  speed : ℝ
  openness : ℝ
  pinchStrength : ℝ
  pinchPosition : Vec3
  fingerSpread : ℝ
  palmNormal : Vec3
  palmFacingCamera : ℝ
  palmTilt : ℝ
  thumbCurl : ℝ
  indexCurl : ℝ
  middleCurl : ℝ
  ringCurl : ℝ
  pinkyCurl : ℝ
  pointDirection : Vec3
  pointStrength : ℝ
  gripStrength : ℝ
  energy : ℝ
  tension : ℝ
  expressiveness : ℝ
  depth : ℝ
  handSize : ℝ
  landmarks : List Vec3

/-- The mutable state of a `HandMetricsExtractor`: the three smoothers'
per-channel maps (one `Option` field per channel key actually used — the key
set is static in `extract`), plus `lastPosition` and the energy accumulator.
`none` models an absent map key.  The wall-clock `lastTime` is not modelled;
the elapsed time `dt` is instead an input of `extract`. -/
structure ExtractorState where
  -- channels of `smoother` (alpha = 0.35)
  depth : Option ℝ
  pos : Option Vec3
  vel : Option Vec3
  thumbCurl : Option ℝ
  indexCurl : Option ℝ
  middleCurl : Option ℝ
  ringCurl : Option ℝ
  pinkyCurl : Option ℝ
  pinchPos : Option Vec3
  spread : Option ℝ
  palmNormal : Option Vec3
  palmTilt : Option ℝ
  pointDir : Option Vec3
  pointStr : Option ℝ
  grip : Option ℝ
  expr : Option ℝ
  speed : Option ℝ
  -- channel of `fastSmoother` (alpha = 0.6)
  pinch : Option ℝ
  -- channels of `slowSmoother` (alpha = 0.15)
  handSize : Option ℝ
  openness : Option ℝ
  palmFacing : Option ℝ
  tension : Option ℝ
  -- plain fields of the extractor
  lastPosition : Vec3
  energy : ℝ

/-- Freshly constructed extractor: empty smoother maps, `lastPosition` 0,
`energy` 0. -/
def initState : ExtractorState :=
  ⟨none, none, none, none, none, none, none, none, none, none, none, none,
   none, none, none, none, none, none, none, none, none, none, v0, 0⟩

/-- `HandMetricsExtractor.reset` (lines 555-560): clears all three smoothers
and zeroes the energy accumulator; `lastPosition` is not touched. -/
def resetState (s : ExtractorState) : ExtractorState :=
  { initState with lastPosition := s.lastPosition }

/-- `HandMetricsExtractor.getEmptyMetrics` (lines 524-553); its `energy`
field is the extractor's current (already decayed) energy accumulator. -/
def getEmptyMetrics (energy : ℝ) : ContinuousHandMetrics where
  isPresent := false
  confidence := 0
  position := ⟨0, 0, 0⟩
  velocity := ⟨0, 0, 0⟩
  speed := 0
  openness := 0.6
  pinchStrength := 0
  pinchPosition := ⟨0, 0, 0⟩
  fingerSpread := 0
  palmNormal := ⟨0, 0, 1⟩
  palmFacingCamera := 1
  palmTilt := 0
  thumbCurl := 0
  indexCurl := 0
  middleCurl := 0
  ringCurl := 0
  pinkyCurl := 0
  pointDirection := ⟨0, -1, 0⟩
  pointStrength := 0
  gripStrength := 0
  energy := energy
  tension := 0
  expressiveness := 0
  depth := 0
  handSize := 0
  landmarks := []

namespace Extract
/-!
The intermediate values of the present-hand branch of
`HandMetricsExtractor.extract` (lines 251-408), one definition per source
local, as functions of the pre-call state `s`, the landmark frame `lm` and
the elapsed time `dt`.  Data flow follows the source line by line.
-/

variable (s : ExtractorState) (lm : List Vec3) (dt : ℝ)

/-- Line 258-259: `handSize = slowSmoother.smoothValue('handSize', distance3D(wrist, middleMcp))`. -/
def handSize : ℝ :=
  smoothValue 0.15 s.handSize (distance3D (getLm lm WRIST) (getLm lm MIDDLE_FINGER_MCP))

/-- Line 264: `rawDepth = (REF_HAND_SIZE / Math.max(0.05, handSize) - 1) * DEPTH_SCALE`. -/
def rawDepth : ℝ := (REF_HAND_SIZE / max 0.05 (handSize s lm) - 1) * DEPTH_SCALE

/-- Line 265: `depth = smoother.smoothValue('depth', rawDepth)` — the default
(alpha = 0.35) smoother. -/
def depth : ℝ := smoothValue 0.35 s.depth (rawDepth s lm)

/-- Lines 268-272: smoothed position; wrist x/y remapped to `[-1,1]`, z
replaced by the estimated depth. -/
def position : Vec3 :=
  smoothVector 0.35 s.pos
    ⟨((getLm lm WRIST).x - 0.5) * 2, -(((getLm lm WRIST).y - 0.5) * 2), depth s lm⟩

/-- Lines 275-279: finite-difference raw velocity.  The source's division by
the elapsed time `dt` is unguarded; this real-division reading is faithful
only for `dt ≠ 0` (at `dt = 0` JavaScript yields Infinity or NaN), which the
bounded-metrics theorem for C3 therefore assumes. -/
def rawVelocity : Vec3 :=
  ⟨((position s lm).x - s.lastPosition.x) / dt,
   ((position s lm).y - s.lastPosition.y) / dt,
   ((position s lm).z - s.lastPosition.z) / dt⟩

/-- Line 280: smoothed velocity. -/
def velocity : Vec3 := smoothVector 0.35 s.vel (rawVelocity s lm dt)

/-- Line 281: `speed = Math.min(1, Math.sqrt(vel.x**2 + vel.y**2) / 10)`. -/
def speed : ℝ :=
  min 1 (Real.sqrt ((velocity s lm dt).x ^ 2 + (velocity s lm dt).y ^ 2) / 10)

/-- Lines 244 and 285: the energy accumulator after this tick — decayed by
`ENERGY_DECAY`, increased by `speed * ENERGY_GAIN`, capped at 1. -/
def energy : ℝ := min 1 (s.energy * ENERGY_DECAY + speed s lm dt * ENERGY_GAIN)

/-- Line 295. -/
def smoothThumb : ℝ := smoothValue 0.35 s.thumbCurl (calculateFingerCurl lm .thumb)

/-- Line 296. -/
def smoothIndex : ℝ := smoothValue 0.35 s.indexCurl (calculateFingerCurl lm .index)

/-- Line 297. -/
def smoothMiddle : ℝ := smoothValue 0.35 s.middleCurl (calculateFingerCurl lm .middle)

/-- Line 298. -/
def smoothRing : ℝ := smoothValue 0.35 s.ringCurl (calculateFingerCurl lm .ring)

/-- Line 299. -/
def smoothPinky : ℝ := smoothValue 0.35 s.pinkyCurl (calculateFingerCurl lm .pinky)

/-- Line 303: `rawOpenness = 1 - (smoothIndex + smoothMiddle + smoothRing + smoothPinky) / 4`. -/
def rawOpenness : ℝ :=
  1 - (smoothIndex s lm + smoothMiddle s lm + smoothRing s lm + smoothPinky s lm) / 4

/-- Line 304: openness, slow-smoothed. -/
def openness : ℝ := smoothValue 0.15 s.openness (rawOpenness s lm)

/-- Line 309. -/
def pinchDist : ℝ := distance3D (getLm lm THUMB_TIP) (getLm lm INDEX_FINGER_TIP)

/-- Line 310: `1 - Math.min(1, Math.max(0, (pinchDist - 0.02) / 0.12))`. -/
def rawPinchStrength : ℝ := 1 - min 1 (max 0 ((pinchDist lm - 0.02) / 0.12))

/-- Line 311: pinch strength, fast-smoothed (alpha = 0.6). -/
def pinchStrength : ℝ := smoothValue 0.6 s.pinch (rawPinchStrength lm)

/-- Lines 313-317. -/
def pinchPosition : Vec3 :=
  smoothVector 0.35 s.pinchPos
    ⟨(((getLm lm THUMB_TIP).x + (getLm lm INDEX_FINGER_TIP).x) / 2 - 0.5) * 2,
     -((((getLm lm THUMB_TIP).y + (getLm lm INDEX_FINGER_TIP).y) / 2 - 0.5) * 2),
     ((getLm lm THUMB_TIP).z + (getLm lm INDEX_FINGER_TIP).z) / 2 * 2⟩

/-- Line 321. -/
def smoothSpread : ℝ := smoothValue 0.35 s.spread (calculateFingerSpread lm)

/-- Line 325. -/
def smoothPalmNormal : Vec3 := smoothVector 0.35 s.palmNormal (calculatePalmNormal lm)

/-- Line 326: `slowSmoother.smoothValue('palmFacing', palmNormal.z > 0 ? 1 : -1)`
— the raw value fed to the slow smoother is exactly `1` or `-1`. -/
def palmFacingCamera : ℝ :=
  smoothValue 0.15 s.palmFacing (if (calculatePalmNormal lm).z > 0 then 1 else -1)

/-- Line 327. -/
def palmTilt : ℝ := smoothValue 0.35 s.palmTilt (calculatePalmNormal lm).x

/-- Lines 331-335. -/
def pointDir : Vec3 :=
  normalize ⟨(getLm lm INDEX_FINGER_TIP).x - (getLm lm INDEX_FINGER_MCP).x,
             -((getLm lm INDEX_FINGER_TIP).y - (getLm lm INDEX_FINGER_MCP).y),
             (getLm lm INDEX_FINGER_TIP).z - (getLm lm INDEX_FINGER_MCP).z⟩

/-- Line 336. -/
def pointDirection : Vec3 := smoothVector 0.35 s.pointDir (pointDir lm)

/-- Line 339: `(1 - smoothIndex) * (smoothMiddle + smoothRing + smoothPinky) / 3`. -/
def pointStrength : ℝ :=
  (1 - smoothIndex s lm) * (smoothMiddle s lm + smoothRing s lm + smoothPinky s lm) / 3

/-- Line 340. -/
def smoothPointStrength : ℝ := smoothValue 0.35 s.pointStr (pointStrength s lm)

/-- Line 344. -/
def avgCurl : ℝ :=
  (smoothIndex s lm + smoothMiddle s lm + smoothRing s lm + smoothPinky s lm) / 4

/-- Line 345: `gripStrength = avgCurl * (1 - rawPinchStrength * 0.5)`. -/
def gripStrength : ℝ := avgCurl s lm * (1 - rawPinchStrength lm * 0.5)

/-- Line 346. -/
def smoothGrip : ℝ := smoothValue 0.35 s.grip (gripStrength s lm)

/-- Lines 350-354: `tension = Math.max(pinchStrength, gripStrength, |openness - 0.5| * 2)`. -/
def tension : ℝ :=
  max (pinchStrength s lm) (max (gripStrength s lm) (|openness s lm - 0.5| * 2))

/-- Line 355: tension, slow-smoothed. -/
def smoothTension : ℝ := smoothValue 0.15 s.tension (tension s lm)

/-- Lines 358-362: raw expressiveness (the `neutralOpenness` baseline is 0.6). -/
def expressiveness : ℝ :=
  |openness s lm - 0.6| + pinchStrength s lm * 0.3 +
    smoothPointStrength s lm * 0.3 + speed s lm dt * 0.4

/-- Line 363: `smoother.smoothValue('expr', Math.min(1, expressiveness))`. -/
def smoothExpressiveness : ℝ := smoothValue 0.35 s.expr (min 1 (expressiveness s lm dt))

/-- Lines 366-370: landmarks remapped into display space. -/
def landmarks : List Vec3 :=
  lm.map fun l => ⟨(l.x - 0.5) * 2, -((l.y - 0.5) * 2), l.z * 2⟩

/-- The metrics record returned by the present-hand branch (lines 372-408). -/
def metrics : ContinuousHandMetrics where
  isPresent := true
  confidence := 0.9
  position := position s lm
  velocity := velocity s lm dt
  speed := smoothValue 0.35 s.speed (speed s lm dt)
  openness := openness s lm
  pinchStrength := pinchStrength s lm
  pinchPosition := pinchPosition s lm
  fingerSpread := smoothSpread s lm
  palmNormal := smoothPalmNormal s lm
  palmFacingCamera := palmFacingCamera s lm
  palmTilt := palmTilt s lm
  thumbCurl := smoothThumb s lm
  indexCurl := smoothIndex s lm
  middleCurl := smoothMiddle s lm
  ringCurl := smoothRing s lm
  pinkyCurl := smoothPinky s lm
  pointDirection := pointDirection s lm
  pointStrength := smoothPointStrength s lm
  gripStrength := smoothGrip s lm
  energy := energy s lm dt
  tension := smoothTension s lm
  expressiveness := smoothExpressiveness s lm dt
  depth := depth s lm
  handSize := handSize s lm
  landmarks := landmarks lm

/-- The extractor state after the present-hand branch: every channel that
`extract` touches holds its freshly smoothed value, `lastPosition` is the new
smoothed position (line 282), `energy` the new accumulator value. -/
def newState : ExtractorState where
  depth := some (depth s lm)
  pos := some (position s lm)
  vel := some (velocity s lm dt)
  thumbCurl := some (smoothThumb s lm)
  indexCurl := some (smoothIndex s lm)
  middleCurl := some (smoothMiddle s lm)
  ringCurl := some (smoothRing s lm)
  pinkyCurl := some (smoothPinky s lm)
  pinchPos := some (pinchPosition s lm)
  spread := some (smoothSpread s lm)
  palmNormal := some (smoothPalmNormal s lm)
  palmTilt := some (palmTilt s lm)
  pointDir := some (pointDirection s lm)
  pointStr := some (smoothPointStrength s lm)
  grip := some (smoothGrip s lm)
  expr := some (smoothExpressiveness s lm dt)
  speed := some (smoothValue 0.35 s.speed (speed s lm dt))
  pinch := some (pinchStrength s lm)
  handSize := some (handSize s lm)
  openness := some (openness s lm)
  palmFacing := some (palmFacingCamera s lm)
  tension := some (smoothTension s lm)
  lastPosition := position s lm
  energy := energy s lm dt

end Extract

/-- `HandMetricsExtractor.extract` (lines 238-409): decays the energy
accumulator, returns the canonical empty metrics when the frame is absent or
has fewer than 21 points, and otherwise runs the full metrics pipeline.
Returns the extractor state after the call together with the metrics. -/
def extract (s : ExtractorState) (rawLandmarks : Option (List Vec3)) (dt : ℝ) :
    ExtractorState × ContinuousHandMetrics :=
  match rawLandmarks with
  | none => ({ s with energy := s.energy * ENERGY_DECAY },
             getEmptyMetrics (s.energy * ENERGY_DECAY))
  | some lm =>
    if lm.length < 21 then
      ({ s with energy := s.energy * ENERGY_DECAY },
       getEmptyMetrics (s.energy * ENERGY_DECAY))
    else
      (Extract.newState s lm dt, Extract.metrics s lm dt)

/-- Extractor states reachable from a fresh extractor by any sequence of
`extract` calls (arbitrary frames, absences and elapsed times) and `reset`s. -/
inductive Reachable : ExtractorState → Prop
  | init : Reachable initState
  | step (s : ExtractorState) (f : Option (List Vec3)) (dt : ℝ) :
      Reachable s → Reachable (extract s f dt).1
  | reset (s : ExtractorState) : Reachable s → Reachable (resetState s)

/-- `x` lies in the closed interval `[0,1]`. -/
def InRange01 (x : ℝ) : Prop := 0 ≤ x ∧ x ≤ 1

/-- Every value held by an optional smoother channel lies in `[a,b]`. -/
def OptIn (a b : ℝ) (o : Option ℝ) : Prop := ∀ x ∈ o, a ≤ x ∧ x ≤ b

/-- The channel invariant of a reachable extractor state: every channel that
only ever receives clamped values holds a value in its range, and the energy
accumulator is in `[0,1]`. -/
structure StateOK (s : ExtractorState) : Prop where
  thumbCurl : OptIn 0 1 s.thumbCurl
  indexCurl : OptIn 0 1 s.indexCurl
  middleCurl : OptIn 0 1 s.middleCurl
  ringCurl : OptIn 0 1 s.ringCurl
  pinkyCurl : OptIn 0 1 s.pinkyCurl
  spread : OptIn 0 1 s.spread
  pointStr : OptIn 0 1 s.pointStr
  grip : OptIn 0 1 s.grip
  expr : OptIn 0 1 s.expr
  speed : OptIn 0 1 s.speed
  pinch : OptIn 0 1 s.pinch
  openness : OptIn 0 1 s.openness
  tension : OptIn 0 1 s.tension
  palmFacing : OptIn (-1) 1 s.palmFacing
  energy : 0 ≤ s.energy ∧ s.energy ≤ 1

/-- An exponential moving average of a value in `[a,b]` with a channel state
in `[a,b]` stays in `[a,b]` (for `0 ≤ alpha ≤ 1`). -/
theorem smoothValue_mem {a b alpha : ℝ} (h0 : 0 ≤ alpha) (h1 : alpha ≤ 1)
    {old : Option ℝ} (hold : OptIn a b old) {v : ℝ} (hva : a ≤ v) (hvb : v ≤ b) :
    a ≤ smoothValue alpha old v ∧ smoothValue alpha old v ≤ b := by
  cases old with
  | none =>
    simp only [smoothValue, Option.getD_none]
    constructor <;> nlinarith
  | some x =>
    obtain ⟨hxa, hxb⟩ := hold x rfl
    simp only [smoothValue, Option.getD_some]
    constructor <;> nlinarith

/-- `Math.min(1, Math.max(0, c))` lies in `[0,1]`. -/
theorem clamp01_mem (c : ℝ) : InRange01 (min 1 (max 0 c)) :=
  ⟨le_min zero_le_one (le_max_left 0 c), min_le_left 1 _⟩

/-- Every finger curl returned by `calculateFingerCurl` lies in `[0,1]`. -/
theorem calculateFingerCurl_mem (lm : List Vec3) (f : Finger) :
    InRange01 (calculateFingerCurl lm f) := by
  cases f
  case thumb =>
    simp only [calculateFingerCurl]
    have hd : 0 ≤ distance3D (getLm lm THUMB_TIP) (getLm lm INDEX_FINGER_MCP) :=
      Real.sqrt_nonneg _
    have hmin₀ : 0 ≤ min 1 (distance3D (getLm lm THUMB_TIP) (getLm lm INDEX_FINGER_MCP) / 0.15) :=
      le_min zero_le_one (by positivity)
    have hmin₁ : min 1 (distance3D (getLm lm THUMB_TIP) (getLm lm INDEX_FINGER_MCP) / 0.15) ≤ 1 :=
      min_le_left _ _
    exact ⟨by linarith, by linarith⟩
  all_goals exact clamp01_mem _

/-- `calculateFingerSpread` lies in `[0,1]`. -/
theorem calculateFingerSpread_mem (lm : List Vec3) :
    InRange01 (calculateFingerSpread lm) := clamp01_mem _

/-- The raw pinch strength (line 310) lies in `[0,1]`. -/
theorem rawPinchStrength_mem (lm : List Vec3) : InRange01 (Extract.rawPinchStrength lm) := by
  obtain ⟨h0, h1⟩ := clamp01_mem ((Extract.pinchDist lm - 0.02) / 0.12)
  exact ⟨by simp only [Extract.rawPinchStrength]; linarith,
         by simp only [Extract.rawPinchStrength]; linarith⟩

namespace Extract

variable {s : ExtractorState} {lm : List Vec3} {dt : ℝ}

/-- The capped speed (line 281) lies in `[0,1]`. -/
theorem speed_mem : InRange01 (speed s lm dt) :=
  ⟨le_min zero_le_one (by positivity), min_le_left 1 _⟩

/-- The energy accumulator after a present-hand tick stays in `[0,1]`. -/
theorem energy_mem (hs : StateOK s) : InRange01 (energy s lm dt) := by
  obtain ⟨he0, he1⟩ := hs.energy
  obtain ⟨hsp0, hsp1⟩ := @speed_mem s lm dt
  refine ⟨le_min zero_le_one ?_, min_le_left 1 _⟩
  simp only [ENERGY_DECAY, ENERGY_GAIN]
  nlinarith

theorem smoothThumb_mem (hs : StateOK s) : InRange01 (smoothThumb s lm) :=
  smoothValue_mem (by norm_num) (by norm_num) hs.thumbCurl
    (calculateFingerCurl_mem lm .thumb).1 (calculateFingerCurl_mem lm .thumb).2

theorem smoothIndex_mem (hs : StateOK s) : InRange01 (smoothIndex s lm) :=
  smoothValue_mem (by norm_num) (by norm_num) hs.indexCurl
    (calculateFingerCurl_mem lm .index).1 (calculateFingerCurl_mem lm .index).2

theorem smoothMiddle_mem (hs : StateOK s) : InRange01 (smoothMiddle s lm) :=
  smoothValue_mem (by norm_num) (by norm_num) hs.middleCurl
    (calculateFingerCurl_mem lm .middle).1 (calculateFingerCurl_mem lm .middle).2

theorem smoothRing_mem (hs : StateOK s) : InRange01 (smoothRing s lm) :=
  smoothValue_mem (by norm_num) (by norm_num) hs.ringCurl
    (calculateFingerCurl_mem lm .ring).1 (calculateFingerCurl_mem lm .ring).2

theorem smoothPinky_mem (hs : StateOK s) : InRange01 (smoothPinky s lm) :=
  smoothValue_mem (by norm_num) (by norm_num) hs.pinkyCurl
    (calculateFingerCurl_mem lm .pinky).1 (calculateFingerCurl_mem lm .pinky).2

/-- The raw openness (line 303) lies in `[0,1]`. -/
theorem rawOpenness_mem (hs : StateOK s) : InRange01 (rawOpenness s lm) := by
  obtain ⟨hi0, hi1⟩ := @smoothIndex_mem s lm hs
  obtain ⟨hm0, hm1⟩ := @smoothMiddle_mem s lm hs
  obtain ⟨hr0, hr1⟩ := @smoothRing_mem s lm hs
  obtain ⟨hp0, hp1⟩ := @smoothPinky_mem s lm hs
  unfold rawOpenness
  exact ⟨by linarith, by linarith⟩

theorem openness_mem (hs : StateOK s) : InRange01 (openness s lm) :=
  smoothValue_mem (by norm_num) (by norm_num) hs.openness
    (rawOpenness_mem hs).1 (rawOpenness_mem hs).2

theorem pinchStrength_mem (hs : StateOK s) : InRange01 (pinchStrength s lm) :=
  smoothValue_mem (by norm_num) (by norm_num) hs.pinch
    (rawPinchStrength_mem lm).1 (rawPinchStrength_mem lm).2

theorem smoothSpread_mem (hs : StateOK s) : InRange01 (smoothSpread s lm) :=
  smoothValue_mem (by norm_num) (by norm_num) hs.spread
    (calculateFingerSpread_mem lm).1 (calculateFingerSpread_mem lm).2

/-- The raw point strength (line 339) lies in `[0,1]`. -/
theorem pointStrength_mem (hs : StateOK s) : InRange01 (pointStrength s lm) := by
  obtain ⟨hi0, hi1⟩ := @smoothIndex_mem s lm hs
  obtain ⟨hm0, hm1⟩ := @smoothMiddle_mem s lm hs
  obtain ⟨hr0, hr1⟩ := @smoothRing_mem s lm hs
  obtain ⟨hp0, hp1⟩ := @smoothPinky_mem s lm hs
  unfold pointStrength
  constructor
  · have := mul_nonneg (by linarith : (0:ℝ) ≤ 1 - smoothIndex s lm)
      (by linarith : (0:ℝ) ≤ smoothMiddle s lm + smoothRing s lm + smoothPinky s lm)
    linarith
  · nlinarith

theorem smoothPointStrength_mem (hs : StateOK s) : InRange01 (smoothPointStrength s lm) :=
  smoothValue_mem (by norm_num) (by norm_num) hs.pointStr
    (pointStrength_mem hs).1 (pointStrength_mem hs).2

/-- The raw grip strength (line 345) lies in `[0,1]`. -/
theorem gripStrength_mem (hs : StateOK s) : InRange01 (gripStrength s lm) := by
  obtain ⟨hi0, hi1⟩ := @smoothIndex_mem s lm hs
  obtain ⟨hm0, hm1⟩ := @smoothMiddle_mem s lm hs
  obtain ⟨hr0, hr1⟩ := @smoothRing_mem s lm hs
  obtain ⟨hp0, hp1⟩ := @smoothPinky_mem s lm hs
  obtain ⟨hq0, hq1⟩ := rawPinchStrength_mem lm
  unfold gripStrength avgCurl
  constructor
  · have := mul_nonneg
      (by linarith : (0:ℝ) ≤ (smoothIndex s lm + smoothMiddle s lm + smoothRing s lm + smoothPinky s lm) / 4)
      (by linarith : (0:ℝ) ≤ 1 - rawPinchStrength lm * 0.5)
    linarith
  · nlinarith

theorem smoothGrip_mem (hs : StateOK s) : InRange01 (smoothGrip s lm) :=
  smoothValue_mem (by norm_num) (by norm_num) hs.grip
    (gripStrength_mem hs).1 (gripStrength_mem hs).2

/-- The raw tension (lines 350-354) lies in `[0,1]`. -/
theorem tension_mem (hs : StateOK s) : InRange01 (tension s lm) := by
  obtain ⟨hp0, hp1⟩ := @pinchStrength_mem s lm hs
  obtain ⟨hg0, hg1⟩ := @gripStrength_mem s lm hs
  obtain ⟨ho0, ho1⟩ := @openness_mem s lm hs
  have habs : |openness s lm - 0.5| * 2 ≤ 1 := by
    have : |openness s lm - 0.5| ≤ 0.5 := abs_le.mpr ⟨by linarith, by linarith⟩
    linarith
  unfold tension
  constructor
  · exact le_max_of_le_left hp0
  · exact max_le hp1 (max_le hg1 habs)

theorem smoothTension_mem (hs : StateOK s) : InRange01 (smoothTension s lm) :=
  smoothValue_mem (by norm_num) (by norm_num) hs.tension
    (tension_mem hs).1 (tension_mem hs).2

/-- The clamped expressiveness fed to the smoother lies in `[0,1]`. -/
theorem expressiveness_clamped_mem (hs : StateOK s) :
    InRange01 (min 1 (expressiveness s lm dt)) := by
  obtain ⟨ho0, ho1⟩ := @openness_mem s lm hs
  obtain ⟨hp0, hp1⟩ := @pinchStrength_mem s lm hs
  obtain ⟨hq0, hq1⟩ := @smoothPointStrength_mem s lm hs
  obtain ⟨hv0, hv1⟩ := @speed_mem s lm dt
  refine ⟨le_min zero_le_one ?_, min_le_left 1 _⟩
  unfold expressiveness
  have := abs_nonneg (openness s lm - 0.6)
  nlinarith

theorem smoothExpressiveness_mem (hs : StateOK s) : InRange01 (smoothExpressiveness s lm dt) :=
  smoothValue_mem (by norm_num) (by norm_num) hs.expr
    (expressiveness_clamped_mem hs).1 (expressiveness_clamped_mem hs).2

theorem smoothSpeed_mem (hs : StateOK s) :
    InRange01 (smoothValue 0.35 s.speed (speed s lm dt)) :=
  smoothValue_mem (by norm_num) (by norm_num) hs.speed
    (@speed_mem s lm dt).1 (@speed_mem s lm dt).2

/-- The smoothed palm-facing sign lies in `[-1,1]` (the raw input is `±1`). -/
theorem palmFacingCamera_mem (hs : StateOK s) :
    -1 ≤ palmFacingCamera s lm ∧ palmFacingCamera s lm ≤ 1 := by
  unfold palmFacingCamera
  have hraw : -1 ≤ (if (calculatePalmNormal lm).z > 0 then (1:ℝ) else -1) ∧
      (if (calculatePalmNormal lm).z > 0 then (1:ℝ) else -1) ≤ 1 := by
    split <;> norm_num
  exact smoothValue_mem (by norm_num) (by norm_num) hs.palmFacing hraw.1 hraw.2

end Extract

theorem OptIn_some {a b v : ℝ} (h1 : a ≤ v) (h2 : v ≤ b) : OptIn a b (some v) := by
  intro x hx
  simp only [Option.mem_def, Option.some_inj] at hx
  subst hx
  exact ⟨h1, h2⟩

theorem OptIn_none {a b : ℝ} : OptIn a b none := by
  intro x hx
  simp [Option.mem_def] at hx

/-- The freshly constructed extractor satisfies the channel invariant. -/
theorem initState_ok : StateOK initState where
  thumbCurl := OptIn_none
  indexCurl := OptIn_none
  middleCurl := OptIn_none
  ringCurl := OptIn_none
  pinkyCurl := OptIn_none
  spread := OptIn_none
  pointStr := OptIn_none
  grip := OptIn_none
  expr := OptIn_none
  speed := OptIn_none
  pinch := OptIn_none
  openness := OptIn_none
  tension := OptIn_none
  palmFacing := OptIn_none
  energy := ⟨le_refl 0, zero_le_one⟩

/-- `reset` re-establishes the channel invariant. -/
theorem resetState_ok (s : ExtractorState) : StateOK (resetState s) where
  thumbCurl := OptIn_none
  indexCurl := OptIn_none
  middleCurl := OptIn_none
  ringCurl := OptIn_none
  pinkyCurl := OptIn_none
  spread := OptIn_none
  pointStr := OptIn_none
  grip := OptIn_none
  expr := OptIn_none
  speed := OptIn_none
  pinch := OptIn_none
  openness := OptIn_none
  tension := OptIn_none
  palmFacing := OptIn_none
  energy := ⟨le_refl 0, zero_le_one⟩

/-- One `extract` call — with any frame, absence, or elapsed time — preserves
the channel invariant. -/
theorem extract_stateOK (s : ExtractorState) (f : Option (List Vec3)) (dt : ℝ)
    (hs : StateOK s) : StateOK (extract s f dt).1 := by
  obtain ⟨he0, he1⟩ := hs.energy
  have hdecay : 0 ≤ s.energy * ENERGY_DECAY ∧ s.energy * ENERGY_DECAY ≤ 1 := by
    constructor <;> (simp only [ENERGY_DECAY]; nlinarith)
  cases f with
  | none =>
    exact { hs with energy := hdecay }
  | some lm =>
    by_cases h : lm.length < 21
    · simp only [extract, if_pos h]
      exact { hs with energy := hdecay }
    · simp only [extract, if_neg h]
      exact {
        thumbCurl := OptIn_some (Extract.smoothThumb_mem hs).1 (Extract.smoothThumb_mem hs).2
        indexCurl := OptIn_some (Extract.smoothIndex_mem hs).1 (Extract.smoothIndex_mem hs).2
        middleCurl := OptIn_some (Extract.smoothMiddle_mem hs).1 (Extract.smoothMiddle_mem hs).2
        ringCurl := OptIn_some (Extract.smoothRing_mem hs).1 (Extract.smoothRing_mem hs).2
        pinkyCurl := OptIn_some (Extract.smoothPinky_mem hs).1 (Extract.smoothPinky_mem hs).2
        spread := OptIn_some (Extract.smoothSpread_mem hs).1 (Extract.smoothSpread_mem hs).2
        pointStr := OptIn_some (Extract.smoothPointStrength_mem hs).1
          (Extract.smoothPointStrength_mem hs).2
        grip := OptIn_some (Extract.smoothGrip_mem hs).1 (Extract.smoothGrip_mem hs).2
        expr := OptIn_some (Extract.smoothExpressiveness_mem hs).1
          (Extract.smoothExpressiveness_mem hs).2
        speed := OptIn_some (Extract.smoothSpeed_mem hs).1 (Extract.smoothSpeed_mem hs).2
        pinch := OptIn_some (Extract.pinchStrength_mem hs).1 (Extract.pinchStrength_mem hs).2
        openness := OptIn_some (Extract.openness_mem hs).1 (Extract.openness_mem hs).2
        tension := OptIn_some (Extract.smoothTension_mem hs).1 (Extract.smoothTension_mem hs).2
        palmFacing := OptIn_some (Extract.palmFacingCamera_mem hs).1
          (Extract.palmFacingCamera_mem hs).2
        energy := Extract.energy_mem hs }

/-- Every reachable extractor state satisfies the channel invariant. -/
theorem reachable_stateOK {s : ExtractorState} (h : Reachable s) : StateOK s := by
  induction h with
  | init => exact initState_ok
  | step s f dt _ ih => exact extract_stateOK s f dt ih
  | reset s _ _ => exact resetState_ok s

/-- The all-zero 21-point landmark frame: structurally valid (21 points) but
degenerate — every finger base coincides with the wrist. -/
def zeroFrame : List Vec3 := List.replicate 21 v0

/-- 21-point frame with `indexMcp = (1,0,0)`, `middleMcp = (0,1,0)`, rest 0. -/
def frameA : List Vec3 :=
  [v0, v0, v0, v0, v0, ⟨1, 0, 0⟩, v0, v0, v0, ⟨0, 1, 0⟩,
   v0, v0, v0, v0, v0, v0, v0, v0, v0, v0, v0]

/-- 21-point frame with `indexMcp = (1,0,0)`, `middleMcp = (0,-1,0)`, rest 0. -/
def frameB : List Vec3 :=
  [v0, v0, v0, v0, v0, ⟨1, 0, 0⟩, v0, v0, v0, ⟨0, -1, 0⟩,
   v0, v0, v0, v0, v0, v0, v0, v0, v0, v0, v0]

theorem frameA_length : frameA.length = 21 := rfl

theorem frameB_length : frameB.length = 21 := rfl

theorem normalize_unitZ : normalize ⟨0, 0, 1⟩ = (⟨0, 0, 1⟩ : Vec3) := by
  simp only [normalize]
  norm_num [Real.sqrt_one]

theorem normalize_negUnitZ : normalize ⟨0, 0, -1⟩ = (⟨0, 0, -1⟩ : Vec3) := by
  simp only [normalize]
  norm_num [Real.sqrt_one]

theorem palmNormal_frameA : calculatePalmNormal frameA = (⟨0, 0, 1⟩ : Vec3) := by
  have h0 : getLm frameA WRIST = v0 := rfl
  have h5 : getLm frameA INDEX_FINGER_MCP = ⟨1, 0, 0⟩ := rfl
  have h9 : getLm frameA MIDDLE_FINGER_MCP = ⟨0, 1, 0⟩ := rfl
  have h17 : getLm frameA PINKY_MCP = v0 := rfl
  simp only [calculatePalmNormal, h0, h5, h9, h17, v0]
  norm_num [normalize_unitZ]

theorem palmNormal_frameB : calculatePalmNormal frameB = (⟨0, 0, -1⟩ : Vec3) := by
  have h0 : getLm frameB WRIST = v0 := rfl
  have h5 : getLm frameB INDEX_FINGER_MCP = ⟨1, 0, 0⟩ := rfl
  have h9 : getLm frameB MIDDLE_FINGER_MCP = ⟨0, -1, 0⟩ := rfl
  have h17 : getLm frameB PINKY_MCP = v0 := rfl
  simp only [calculatePalmNormal, h0, h5, h9, h17, v0]
  norm_num [normalize_negUnitZ]

/-- After one `extract` on `frameA`, the slow smoother's `palmFacing` channel
holds exactly `1`. -/
theorem stateA_palmFacing : (extract initState (some frameA) 1).1.palmFacing = some 1 := by
  have hnot : ¬ frameA.length < 21 := by rw [frameA_length]; omega
  simp only [extract, if_neg hnot, Extract.newState, Extract.palmFacingCamera,
    palmNormal_frameA]
  norm_num [smoothValue, initState]

/-- C4 (amended): for every valid frame and reachable state,
`palmFacingCamera` lies in `[-1,1]` and equals the slow EMA (alpha = 0.15)
of a raw facing sign that is exactly `1` or `-1`; it is not restricted to
the two endpoint values themselves. -/
theorem C4_amended_palmFacing_smoothed_sign (s : ExtractorState) (hs : Reachable s)
    (lm : List Vec3) (hlm : 21 ≤ lm.length) (dt : ℝ) :
    (-1 ≤ (extract s (some lm) dt).2.palmFacingCamera ∧
      (extract s (some lm) dt).2.palmFacingCamera ≤ 1) ∧
    ∃ raw : ℝ, (raw = 1 ∨ raw = -1) ∧
      (extract s (some lm) dt).2.palmFacingCamera =
        0.15 * raw + 0.85 * (s.palmFacing.getD raw) := by
  have hok := reachable_stateOK hs
  have hnot : ¬ lm.length < 21 := by omega
  simp only [extract, if_neg hnot, Extract.metrics]
  refine ⟨Extract.palmFacingCamera_mem hok, ?_⟩
  refine ⟨if (calculatePalmNormal lm).z > 0 then 1 else -1, by split <;> simp, ?_⟩
  simp only [Extract.palmFacingCamera, smoothValue]
  norm_num

/-- Witness for the amended C4 at the initial state and the all-zero frame. -/
theorem C4_amended_palmFacing_smoothed_sign_witness :
    Reachable initState ∧ 21 ≤ zeroFrame.length ∧
    (-1 ≤ (extract initState (some zeroFrame) 1).2.palmFacingCamera ∧
      (extract initState (some zeroFrame) 1).2.palmFacingCamera ≤ 1) :=
  ⟨Reachable.init, by simp [zeroFrame],
   (C4_amended_palmFacing_smoothed_sign initState Reachable.init zeroFrame
      (by simp [zeroFrame]) 1).1⟩

/-- C4 counterexample: from the reachable state produced by one frame whose
palm faces the camera, a valid frame whose palm faces away yields
`palmFacingCamera = 0.15·(-1) + 0.85·1 = 0.7`, which is neither `1` nor
`-1`, refuting "exactly 1 or exactly -1". -/
theorem C4_counterexample_palmFacing_intermediate :
    Reachable ((extract initState (some frameA) 1).1) ∧
    21 ≤ frameB.length ∧
    (extract ((extract initState (some frameA) 1).1) (some frameB) 1).2.palmFacingCamera
      = 0.7 ∧
    (0.7 : ℝ) ≠ 1 ∧ (0.7 : ℝ) ≠ -1 := by
  have hst := stateA_palmFacing
  refine ⟨Reachable.step _ _ _ Reachable.init, by rw [frameB_length], ?_, by norm_num,
    by norm_num⟩
  have hnot : ¬ frameB.length < 21 := by rw [frameB_length]; omega
  revert hst
  generalize (extract initState (some frameA) 1).1 = sA
  intro hst
  simp only [extract, if_neg hnot, Extract.metrics, Extract.palmFacingCamera,
    palmNormal_frameB, hst]
  norm_num [smoothValue]

/-! C5: the depth pipeline. -/

/-- 21-point frame with `middleMcp = (0.25, 0, 0)` (apparent hand size equal
to the reference size 0.25), rest 0. -/
def frameC : List Vec3 :=
  [v0, v0, v0, v0, v0, v0, v0, v0, v0, ⟨0.25, 0, 0⟩,
   v0, v0, v0, v0, v0, v0, v0, v0, v0, v0, v0]

/-- 21-point frame with `middleMcp = (0.1, 0, 0)` (apparent hand size 0.1),
rest 0. -/
def frameD : List Vec3 :=
  [v0, v0, v0, v0, v0, v0, v0, v0, v0, ⟨0.1, 0, 0⟩,
   v0, v0, v0, v0, v0, v0, v0, v0, v0, v0, v0]

theorem frameC_length : frameC.length = 21 := rfl

theorem frameD_length : frameD.length = 21 := rfl

theorem dist_frameC : distance3D (getLm frameC WRIST) (getLm frameC MIDDLE_FINGER_MCP) = 0.25 := by
  have h0 : getLm frameC WRIST = v0 := rfl
  have h9 : getLm frameC MIDDLE_FINGER_MCP = ⟨0.25, 0, 0⟩ := rfl
  rw [h0, h9]
  simp only [distance3D, v0]
  rw [show ((0:ℝ) - 0.25) * (0 - 0.25) + (0 - 0) * (0 - 0) + (0 - 0) * (0 - 0)
        = 0.25 ^ 2 by norm_num]
  exact Real.sqrt_sq (by norm_num)

theorem dist_frameD : distance3D (getLm frameD WRIST) (getLm frameD MIDDLE_FINGER_MCP) = 0.1 := by
  have h0 : getLm frameD WRIST = v0 := rfl
  have h9 : getLm frameD MIDDLE_FINGER_MCP = ⟨0.1, 0, 0⟩ := rfl
  rw [h0, h9]
  simp only [distance3D, v0]
  rw [show ((0:ℝ) - 0.1) * (0 - 0.1) + (0 - 0) * (0 - 0) + (0 - 0) * (0 - 0)
        = 0.1 ^ 2 by norm_num]
  exact Real.sqrt_sq (by norm_num)

/-- After one `extract` on `frameC`, the slow `handSize` channel holds 0.25. -/
theorem stateC_handSize : (extract initState (some frameC) 1).1.handSize = some 0.25 := by
  have hnot : ¬ frameC.length < 21 := by rw [frameC_length]; omega
  simp only [extract, if_neg hnot, Extract.newState, Extract.handSize, dist_frameC]
  norm_num [smoothValue, initState]

/-- After one `extract` on `frameC`, the `depth` channel holds 0 (hand size
equals the reference size, so the raw depth is 0). -/
theorem stateC_depth : (extract initState (some frameC) 1).1.depth = some 0 := by
  have hnot : ¬ frameC.length < 21 := by rw [frameC_length]; omega
  simp only [extract, if_neg hnot, Extract.newState, Extract.depth, Extract.rawDepth,
    Extract.handSize, dist_frameC]
  norm_num [smoothValue, initState, REF_HAND_SIZE, DEPTH_SCALE, max_def]

/-- The depth pipeline as claim C5 states it: the raw depth smoothed with the
SLOW smoother (alpha = 0.15).  Spec-side definition, for comparison with the
source's depth, which smooths the raw depth with the default (alpha = 0.35)
smoother and applies the slow smoother to the measured hand size instead. -/
def specDepthSlowSmoothed (s : ExtractorState) (lm : List Vec3) : ℝ :=
  smoothValue 0.15 s.depth (Extract.rawDepth s lm)

/-- C5 (amended): on every tick with a hand present, the raw depth is
`(REF_HAND_SIZE / max(0.05, handSize) - 1) * DEPTH_SCALE` where `handSize`
is the slow-smoothed wrist-to-middle-MCP distance, and this raw depth is
smoothed with the DEFAULT (alpha = 0.35) smoother — not the slow one —
before being returned as the `depth` field. -/
theorem C5_amended_depth_default_smoothed (s : ExtractorState) (lm : List Vec3)
    (hlm : 21 ≤ lm.length) (dt : ℝ) :
    (extract s (some lm) dt).2.depth =
      smoothValue 0.35 s.depth
        ((REF_HAND_SIZE / max 0.05
            (smoothValue 0.15 s.handSize
              (distance3D (getLm lm WRIST) (getLm lm MIDDLE_FINGER_MCP))) - 1)
          * DEPTH_SCALE) := by
  have hnot : ¬ lm.length < 21 := by omega
  simp only [extract, if_neg hnot, Extract.metrics, Extract.depth, Extract.rawDepth,
    Extract.handSize]

/-- Witness for the amended C5 at the all-zero frame. -/
theorem C5_amended_depth_default_smoothed_witness :
    21 ≤ zeroFrame.length ∧
    (extract initState (some zeroFrame) 1).2.depth =
      smoothValue 0.35 initState.depth
        ((REF_HAND_SIZE / max 0.05
            (smoothValue 0.15 initState.handSize
              (distance3D (getLm zeroFrame WRIST) (getLm zeroFrame MIDDLE_FINGER_MCP))) - 1)
          * DEPTH_SCALE) :=
  ⟨by simp [zeroFrame],
   C5_amended_depth_default_smoothed initState zeroFrame (by simp [zeroFrame]) 1⟩

/-- C5 counterexample: from the reachable state after `frameC` (hand size at
the reference 0.25, depth channel 0), the frame `frameD` (hand size 0.1)
makes the raw depth `27/91`; the source returns `0.35 · 27/91 = 27/260`,
while slow smoothing as the claim states would return `0.15 · 27/91 =
81/1820`.  The two differ, so the depth is not smoothed with the slow
smoother. -/
theorem C5_counterexample_depth_not_slow_smoothed :
    Reachable ((extract initState (some frameC) 1).1) ∧
    21 ≤ frameD.length ∧
    (extract ((extract initState (some frameC) 1).1) (some frameD) 1).2.depth = 27 / 260 ∧
    specDepthSlowSmoothed ((extract initState (some frameC) 1).1) frameD = 81 / 1820 ∧
    (27 : ℝ) / 260 ≠ 81 / 1820 := by
  have hs := stateC_handSize
  have hd := stateC_depth
  refine ⟨Reachable.step _ _ _ Reachable.init, by rw [frameD_length], ?_⟩
  revert hs hd
  generalize (extract initState (some frameC) 1).1 = sC
  intro hs hd
  have hnot : ¬ frameD.length < 21 := by rw [frameD_length]; omega
  refine ⟨?_, ?_, by norm_num⟩
  · simp only [extract, if_neg hnot, Extract.metrics, Extract.depth, Extract.rawDepth,
      Extract.handSize, dist_frameD, hs, hd]
    norm_num [smoothValue, REF_HAND_SIZE, DEPTH_SCALE, max_def]
  · simp only [specDepthSlowSmoothed, Extract.rawDepth, Extract.handSize, dist_frameD, hs, hd]
    norm_num [smoothValue, REF_HAND_SIZE, DEPTH_SCALE, max_def]

/-! C6: the thumb curl. -/

/-- 21-point frame whose thumb tip `(0, 0, 0.15)` differs from the index base
(at the origin) only in the z coordinate. -/
def frameE : List Vec3 :=
  [v0, v0, v0, v0, ⟨0, 0, 0.15⟩, v0, v0, v0, v0, v0,
   v0, v0, v0, v0, v0, v0, v0, v0, v0, v0, v0]

theorem dist_frameE : distance3D (getLm frameE THUMB_TIP) (getLm frameE INDEX_FINGER_MCP) = 0.15 := by
  have h4 : getLm frameE THUMB_TIP = ⟨0, 0, 0.15⟩ := rfl
  have h5 : getLm frameE INDEX_FINGER_MCP = v0 := rfl
  rw [h4, h5]
  simp only [distance3D, v0]
  rw [show ((0:ℝ) - 0) * (0 - 0) + (0 - 0) * (0 - 0) + (0.15 - 0) * (0.15 - 0)
        = 0.15 ^ 2 by norm_num]
  exact Real.sqrt_sq (by norm_num)

theorem dist_zeroFrame_thumb :
    distance3D (getLm zeroFrame THUMB_TIP) (getLm zeroFrame INDEX_FINGER_MCP) = 0 := by
  have h4 : getLm zeroFrame THUMB_TIP = v0 := rfl
  have h5 : getLm zeroFrame INDEX_FINGER_MCP = v0 := rfl
  rw [h4, h5]
  simp only [distance3D, v0]
  norm_num [Real.sqrt_zero]

/-- Thumb curl as claim C6 states it: from the 2D (x and y only) distance
between thumb tip and index base.  Spec-side definition, for comparison with
`calculateFingerCurl`, which uses the full 3D distance. -/
def specThumbCurl2D (lm : List Vec3) : ℝ :=
  let thumbTip := getLm lm THUMB_TIP
  let indexMcp := getLm lm INDEX_FINGER_MCP
  let dist := Real.sqrt ((thumbTip.x - indexMcp.x) * (thumbTip.x - indexMcp.x) +
    (thumbTip.y - indexMcp.y) * (thumbTip.y - indexMcp.y))
  1 - min 1 (dist / 0.15)

/-- C6 (amended): the raw thumb curl is the inverse-normalized **3D**
distance from thumb tip to index base (not the 2D x/y distance): distance 0
gives curl 1 and distances at or beyond the 0.15 band edge give curl 0. -/
theorem C6_amended_thumb_curl_from_3d_distance (lm : List Vec3) :
    calculateFingerCurl lm .thumb =
      1 - min 1 (distance3D (getLm lm THUMB_TIP) (getLm lm INDEX_FINGER_MCP) / 0.15) ∧
    (distance3D (getLm lm THUMB_TIP) (getLm lm INDEX_FINGER_MCP) = 0 →
      calculateFingerCurl lm .thumb = 1) ∧
    (0.15 ≤ distance3D (getLm lm THUMB_TIP) (getLm lm INDEX_FINGER_MCP) →
      calculateFingerCurl lm .thumb = 0) := by
  refine ⟨rfl, ?_, ?_⟩
  · intro h
    simp only [calculateFingerCurl, h]
    norm_num
  · intro h
    simp only [calculateFingerCurl]
    rw [min_eq_left (by rw [le_div_iff₀ (by norm_num)]; linarith)]
    norm_num

/-- Witness for the amended C6: on the all-zero frame the thumb-tip/index-base
distance is 0 and the thumb curl is exactly 1. -/
theorem C6_amended_thumb_curl_from_3d_distance_witness :
    distance3D (getLm zeroFrame THUMB_TIP) (getLm zeroFrame INDEX_FINGER_MCP) = 0 ∧
    calculateFingerCurl zeroFrame .thumb = 1 :=
  ⟨dist_zeroFrame_thumb,
   (C6_amended_thumb_curl_from_3d_distance zeroFrame).2.1 dist_zeroFrame_thumb⟩

/-- C6 counterexample: on `frameE` the thumb tip is at 2D (x,y) distance 0
from the index base, so the claimed 2D formula gives curl 1, but the source
(3D distance 0.15) gives curl 0. -/
theorem C6_counterexample_thumb_curl_uses_z :
    calculateFingerCurl frameE .thumb = 0 ∧ specThumbCurl2D frameE = 1 ∧ (0 : ℝ) ≠ 1 := by
  refine ⟨?_, ?_, by norm_num⟩
  · simp only [calculateFingerCurl, dist_frameE]
    norm_num
  · have h4 : getLm frameE THUMB_TIP = ⟨0, 0, 0.15⟩ := rfl
    have h5 : getLm frameE INDEX_FINGER_MCP = v0 := rfl
    simp only [specThumbCurl2D, h4, h5, v0]
    norm_num [Real.sqrt_zero]

/-! C7: behaviour on an absent hand or malformed frame. -/

/-- C7: after any history, an absent hand or a malformed frame (fewer than 21
points) returns the canonical empty metrics; the post-call state only changes
its energy, which is multiplied by `ENERGY_DECAY` (≈0.97): all returned
fields are identical from call to call except energy, which decays
monotonically toward 0 but is never instantaneously reset to 0. -/
theorem C7_absence_canonical_energy_decay (s : ExtractorState) (dt : ℝ)
    (f : Option (List Vec3))
    (hf : f = none ∨ ∃ lm, f = some lm ∧ lm.length < 21) :
    (extract s f dt).2 = getEmptyMetrics (s.energy * ENERGY_DECAY) ∧
    (extract s f dt).1 = { s with energy := s.energy * ENERGY_DECAY } ∧
    (0 ≤ s.energy → (extract s f dt).2.energy ≤ s.energy) ∧
    (0 < s.energy → 0 < (extract s f dt).2.energy ∧ (extract s f dt).2.energy < s.energy) := by
  have hbranch : (extract s f dt)
      = ({ s with energy := s.energy * ENERGY_DECAY },
         getEmptyMetrics (s.energy * ENERGY_DECAY)) := by
    rcases hf with rfl | ⟨lm, rfl, hlen⟩
    · rfl
    · simp only [extract, if_pos hlen]
  rw [hbranch]
  refine ⟨rfl, rfl, ?_, ?_⟩
  · intro h
    simp only [getEmptyMetrics, ENERGY_DECAY]
    nlinarith
  · intro h
    simp only [getEmptyMetrics, ENERGY_DECAY]
    constructor <;> nlinarith

/-- Witness for C7: from energy 1/2, feeding `none` yields the canonical
empty metrics with energy strictly between 0 and 1/2. -/
theorem C7_absence_canonical_energy_decay_witness :
    (extract { initState with energy := 1/2 } none 1).2
        = getEmptyMetrics ((1/2) * ENERGY_DECAY) ∧
    (0 : ℝ) < 1/2 ∧
    0 < (extract { initState with energy := 1/2 } none 1).2.energy ∧
    (extract { initState with energy := 1/2 } none 1).2.energy < 1/2 := by
  obtain ⟨h1, _, _, h4⟩ := C7_absence_canonical_energy_decay
    { initState with energy := 1/2 } 1 none (Or.inl rfl)
  exact ⟨h1, by norm_num, (h4 (by norm_num)).1, (h4 (by norm_num)).2⟩

/-! C8: epsilon flooring of divisions. -/

/-- C8 counterexample: on the all-zero (degenerate, but structurally valid)
21-point frame, the divisor of the finger-curl ratio for the index finger
(line 458: `tipToWrist / (mcpToWrist * 1.3)`) is exactly 0 — this division
is not floored away from zero by any positive epsilon (in JavaScript the
resulting `0/0` is NaN, which then propagates into the curl metrics). -/
theorem C8_counterexample_curl_division_unguarded :
    21 ≤ zeroFrame.length ∧
    distance3D (getLm zeroFrame INDEX_FINGER_MCP) (getLm zeroFrame WRIST) * 1.3 = 0 := by
  refine ⟨by simp [zeroFrame], ?_⟩
  have h5 : getLm zeroFrame INDEX_FINGER_MCP = v0 := rfl
  have h0 : getLm zeroFrame WRIST = v0 := rfl
  rw [h5, h0, distance3D_self]
  norm_num

/-- C8 (amended): the depth division's denominator is floored to at least
the epsilon 0.05 for every state and frame, and `normalize` guards an
exactly-zero length vector (returning the canonical `(0,0,1)`); the
finger-curl ratio's denominator, however, carries no epsilon floor (see the
counterexample), so a degenerate frame with coincident landmarks produces an
unguarded `0/0` there. -/
theorem C8_amended_depth_division_floored (s : ExtractorState) (lm : List Vec3) :
    0.05 ≤ max 0.05 (Extract.handSize s lm) ∧ normalize v0 = ⟨0, 0, 1⟩ := by
  refine ⟨le_max_left _ _, ?_⟩
  simp only [normalize, v0]
  norm_num [Real.sqrt_zero]

/-! C9: smoother convergence on constant input. -/

/-- The state of one smoother channel after feeding the constant raw value
`V` to it `n` times (`smoothValue` applied repeatedly, starting from channel
state `c0`). -/
def feedConstant (alpha V : ℝ) (c0 : Option ℝ) : ℕ → Option ℝ
  | 0 => c0
  | n + 1 => some (smoothValue alpha (feedConstant alpha V c0 n) V)

/-- C9: with alpha = 0.35 and `previous` defaulting to the raw value on first
observation, repeatedly feeding a constant `V` to a channel converges the
smoothed value to `V`: the deviation from `V` after `n` ticks is exactly
`0.65 ^ n` times the initial deviation, after 10 ticks it is within 2% of the
initial deviation (`0.65 ^ 10 < 0.02`; from a fresh channel it is 0 from the
first tick on), and the smoothed value tends to `V`. -/
theorem C9_smoother_constant_convergence (c0 : Option ℝ) (V : ℝ) :
    (∀ n : ℕ, (feedConstant 0.35 V c0 n).getD V - V = 0.65 ^ n * (c0.getD V - V)) ∧
    |(feedConstant 0.35 V c0 10).getD V - V| ≤ 0.02 * |c0.getD V - V| ∧
    (feedConstant 0.35 V none 10).getD V = V ∧
    Filter.Tendsto (fun n => (feedConstant 0.35 V c0 n).getD V) Filter.atTop (nhds V) := by
  have key : ∀ n : ℕ, (feedConstant 0.35 V c0 n).getD V - V = 0.65 ^ n * (c0.getD V - V) := by
    intro n
    induction n with
    | zero => simp [feedConstant]
    | succ n ih =>
      show (some (smoothValue 0.35 (feedConstant 0.35 V c0 n) V)).getD V - V = _
      simp only [Option.getD_some, smoothValue]
      calc 0.35 * V + (1 - 0.35) * (feedConstant 0.35 V c0 n).getD V - V
          = 0.65 * ((feedConstant 0.35 V c0 n).getD V - V) := by ring
        _ = 0.65 * (0.65 ^ n * (c0.getD V - V)) := by rw [ih]
        _ = 0.65 ^ (n + 1) * (c0.getD V - V) := by ring
  have keyNone : ∀ n : ℕ, (feedConstant 0.35 V none n).getD V - V
      = 0.65 ^ n * ((none : Option ℝ).getD V - V) := by
    intro n
    induction n with
    | zero => simp [feedConstant]
    | succ n ih =>
      show (some (smoothValue 0.35 (feedConstant 0.35 V none n) V)).getD V - V = _
      simp only [Option.getD_some, smoothValue]
      calc 0.35 * V + (1 - 0.35) * (feedConstant 0.35 V none n).getD V - V
          = 0.65 * ((feedConstant 0.35 V none n).getD V - V) := by ring
        _ = 0.65 * (0.65 ^ n * ((none : Option ℝ).getD V - V)) := by rw [ih]
        _ = 0.65 ^ (n + 1) * ((none : Option ℝ).getD V - V) := by ring
  refine ⟨key, ?_, ?_, ?_⟩
  · rw [key 10, abs_mul, abs_of_nonneg (show (0:ℝ) ≤ 0.65 ^ 10 by positivity)]
    exact mul_le_mul_of_nonneg_right (by norm_num) (abs_nonneg _)
  · have := keyNone 10
    simp only [Option.getD_none, sub_self, mul_zero] at this
    linarith
  · have hgeo : Filter.Tendsto (fun n : ℕ => (0.65 : ℝ) ^ n) Filter.atTop (nhds 0) :=
      tendsto_pow_atTop_nhds_zero_of_lt_one (by norm_num) (by norm_num)
    have hlim := (hgeo.mul_const (c0.getD V - V)).const_add V
    rw [zero_mul, add_zero] at hlim
    refine hlim.congr fun n => ?_
    have := key n
    linarith

/-! The particle-field simulator (`src/components/ParticleSystem.tsx`) and
the geometry sampler (`generateGeometry`, `src/services/geometryService.ts`). -/

/-- `PARTICLE_COUNT = 8000` (geometryService.ts line 5, "Lowered particle
budget to improve FPS on modest GPUs"): default `count` of `generateGeometry`. -/
def PARTICLE_COUNT : ℕ := 8000

/-- Length of the `Float32Array` returned by `generateGeometry(shape, count)`
(line 9: `new Float32Array(count * 3)`; the loop writes exactly indices
`0 .. count*3 - 1`). -/
def generateGeometryLength (count : ℕ) : ℕ := count * 3

/-- `COUNT = 15000` (ParticleSystem.tsx line 15): the simulator's particle
budget; the per-frame loop runs `i = 0 .. COUNT-1` and reads
`targetPositions[3i], [3i+1], [3i+2]`. -/
def COUNT : ℕ := 15000

/-- `TRANSITION_DURATION = 1.5` seconds (ParticleSystem.tsx line 16). -/
def TRANSITION_DURATION : ℝ := 1.5

/-- Reading one component of the target array (`targetPositions[k]`).  A
JavaScript typed-array read out of bounds yields `undefined` (then NaN in
arithmetic), modelled as `none`. -/
def readTarget (targets : List ℝ) (k : ℕ) : Option ℝ := targets[k]?

/-- C2 (code bug): the simulator's particle count (COUNT = 15000) exceeds the
number of target points produced by `generateGeometry` with its default
count (PARTICLE_COUNT = 8000), so the per-frame target reads for particles
8000..14999 — e.g. index `8000 * 3 + 2` — are out of the bounds of the
24000-element target array. -/
theorem C2_particle_count_exceeds_target_points :
    PARTICLE_COUNT < COUNT ∧
    8000 < COUNT ∧
    ¬ (8000 * 3 + 2 < generateGeometryLength PARTICLE_COUNT) := by
  refine ⟨?_, ?_, ?_⟩ <;> norm_num [PARTICLE_COUNT, COUNT, generateGeometryLength]

/-- C1 (code bug): for any metrics vector, already on the first frame the
target read for particle 8000 (`targetPositions[8000 * 3]`, line 223) falls
outside the default-size target array and yields `undefined`; the particle's
velocity and position therefore become NaN — not bounded by any multiple of
the scene scale. -/
theorem C1_particle_8000_target_read_undefined :
    8000 < COUNT ∧
    readTarget (List.replicate (generateGeometryLength PARTICLE_COUNT) 0) (8000 * 3) = none := by
  constructor
  · norm_num [COUNT]
  · rw [readTarget]
    apply List.getElem?_eq_none
    simp only [List.length_replicate]
    norm_num [generateGeometryLength, PARTICLE_COUNT]

/-- `ParticleShape` (src/unnamed/part_000). -/
inductive ParticleShape | sphere | heart | galaxy | flower | entity
  deriving DecidableEq

/-- The shape-transition bookkeeping of `ParticleSystem` (`transitionRef`,
ParticleSystem.tsx lines 39-44). -/
structure TransitionState where
  progress : ℝ
  startTime : ℝ
  previousTargets : Option (List ℝ)
  flashIntensity : ℝ

/-- The simulator state relevant to the shape-transition state machine:
`isTransitioning`, `transitionRef`, `prevShapeRef` and the current target
array. -/
structure SimState where
  isTransitioning : Bool
  transition : TransitionState
  prevShape : ParticleShape
  targetPositions : List ℝ

/-- The shape-change effect (lines 85-111): when the shape prop differs from
`prevShapeRef`, snapshot the current targets as `previousTargets`, set
progress to 0, `startTime` to now and flash intensity to 1, mark the system
transitioning, install the freshly sampled targets and update
`prevShapeRef`.  (The random ejection forces affect only particle motion and
are not part of this state machine.) -/
def handleShapeChange (st : SimState) (shape : ParticleShape) (now : ℝ)
    (newTargets : List ℝ) : SimState :=
  if shape ≠ st.prevShape then
    { isTransitioning := true
      transition := { progress := 0, startTime := now,
                      previousTargets := some st.targetPositions, flashIntensity := 1 }
      prevShape := shape
      targetPositions := newTargets }
  else st

/-- The transition-handling prefix of the `useFrame` callback (lines
166-188): while transitioning, progress is `min 1 (elapsed /
TRANSITION_DURATION)` and the flash decays on a 0.3 s window; when progress
reaches 1 the system returns to idle and the previous-target snapshot is
cleared. -/
def frameTransitionStep (st : SimState) (time : ℝ) : SimState :=
  if st.isTransitioning then
    let elapsed := time - st.transition.startTime
    let progress := min 1 (elapsed / TRANSITION_DURATION)
    let flash := max 0 (1 - elapsed / 0.3)
    if 1 ≤ progress then
      { st with isTransitioning := false
                transition := { progress := progress, startTime := st.transition.startTime,
                                previousTargets := none, flashIntensity := flash } }
    else
      { st with transition := { progress := progress, startTime := st.transition.startTime,
                                previousTargets := st.transition.previousTargets,
                                flashIntensity := flash } }
  else st

/-- An idle simulator state on the sphere shape holding the default-size
target array. -/
def idleSphere : SimState where
  isTransitioning := false
  transition := { progress := 1, startTime := 0, previousTargets := none, flashIntensity := 0 }
  prevShape := .sphere
  targetPositions := List.replicate (generateGeometryLength PARTICLE_COUNT) 0

/-- The state right after a sphere → heart shape change at `now = 10`. -/
def afterChange : SimState :=
  handleShapeChange idleSphere .heart 10
    (List.replicate (generateGeometryLength PARTICLE_COUNT) 0)

/-- The state after the next frame at `time = 10 + TRANSITION_DURATION`. -/
def afterFullDuration : SimState := frameTransitionStep afterChange (10 + TRANSITION_DURATION)

/-- C10 (code bug, evaluated at the failing input): triggering a shape change
does enter the Transitioning state with progress 0, and one frame at the full
transition duration does drive progress to exactly 1, return the simulator to
Idle and clear the previous-target snapshot — but the claim's final clause
fails: particle 8000's velocity is NaN, because its target read
(`targetPositions[8000 * 3]`) is out of bounds of the 24000-element target
array (`undefined`, poisoning the velocity update), hence not finite. -/
theorem C10_transition_completes_but_velocity_nan :
    afterChange.isTransitioning = true ∧
    afterChange.transition.progress = 0 ∧
    afterFullDuration.transition.progress = 1 ∧
    afterFullDuration.isTransitioning = false ∧
    afterFullDuration.transition.previousTargets = none ∧
    8000 < COUNT ∧
    readTarget afterFullDuration.targetPositions (8000 * 3) = none := by
  have hChange : afterChange = {
      isTransitioning := true
      transition := { progress := 0, startTime := 10,
                      previousTargets := some idleSphere.targetPositions, flashIntensity := 1 }
      prevShape := .heart
      targetPositions := List.replicate (generateGeometryLength PARTICLE_COUNT) 0 } := by
    simp [afterChange, handleShapeChange, idleSphere]
  have hprog : min (1:ℝ) ((10 + TRANSITION_DURATION - 10) / TRANSITION_DURATION) = 1 := by
    norm_num [TRANSITION_DURATION]
  refine ⟨by rw [hChange], by rw [hChange], ?_, ?_, ?_, by norm_num [COUNT], ?_⟩
  · simp only [afterFullDuration, frameTransitionStep, hChange]
    norm_num [TRANSITION_DURATION]
  · simp only [afterFullDuration, frameTransitionStep, hChange]
    norm_num [TRANSITION_DURATION]
  · simp only [afterFullDuration, frameTransitionStep, hChange]
    norm_num [TRANSITION_DURATION]
  · have htargets : afterFullDuration.targetPositions
        = List.replicate (generateGeometryLength PARTICLE_COUNT) 0 := by
      simp only [afterFullDuration, frameTransitionStep, hChange]
      norm_num [TRANSITION_DURATION]
    rw [htargets, readTarget]
    apply List.getElem?_eq_none
    simp only [List.length_replicate]
    norm_num [generateGeometryLength, PARTICLE_COUNT]

end

end MovaParticulas
